import Mathlib

/-!
Verification of the completion coordination core of the helix editor
(`helix-term/src/handlers/completion.rs` and
`helix-term/src/handlers/completion/request.rs`).

The Rust code is shallowly embedded: identifiers (`ViewId`, `DocumentId`,
`LanguageServerId`) become `Nat`; text ropes become `List Char`; the
one-shot cancel sender `CancelTx` becomes a record carrying its observable
`closed` status; `Instant::now() + timeout` becomes the returned timeout
duration in milliseconds (an `Option Nat`: `none` means no deadline).
Side effects (sending events, dispatching work onto the editor thread,
installing a popup) become returned values.

The file is organised as: data model, debouncer, trigger classifier,
request orchestrator, provider-reply merge pipeline, replace-on-arrival
tasks, UI installer; then concrete inputs used by witnesses; then the
theorems.
-/

namespace HelixCompletion

/-- Character strings, embedded as lists of characters (`Rope` slices and
`String`s in the source). -/
abbrev Str := List Char

abbrev ViewId := Nat
abbrev DocumentId := Nat
abbrev LanguageServerId := Nat

/-- Rust `TriggerKind` from `handlers/completion/request.rs`. -/
inductive TriggerKind where
  | Auto
  | TriggerChar
  | Manual
deriving DecidableEq, Repr

/-- Rust `Trigger` from `handlers/completion/request.rs`. -/
structure Trigger where
  pos : Nat
  view : ViewId
  doc : DocumentId
  kind : TriggerKind
deriving DecidableEq, Repr

/-- Rust `CompletionEvent` from `helix-view` (as consumed by the debouncer). -/
inductive CompletionEvent where
  | AutoTrigger (cursor : Nat) (doc : DocumentId) (view : ViewId)
  | TriggerChar (cursor : Nat) (doc : DocumentId) (view : ViewId)
  | ManualTrigger (cursor : Nat) (doc : DocumentId) (view : ViewId)
  | DeleteText (cursor : Nat)
  | Cancel
deriving DecidableEq, Repr

/-- The cancel sender (`CancelTx`). Only its observable `is_closed` status
matters to the debouncer; dropping it is modelled by removing it from the
`request` slot. A freshly allocated sender is open (`closed = false`). -/
structure CancelTx where
  closed : Bool
deriving DecidableEq, Repr

/-- The configuration options read by this subsystem. `completionTimeout`
is in milliseconds. -/
structure Config where
  autoCompletion : Bool
  completionTimeout : Nat
  completionTriggerLen : Nat
deriving DecidableEq, Repr

/-- The mutable state of `CompletionHandler` (the debouncer). The `config`
handle is passed separately to `handle_event` instead of being stored. -/
structure CompletionHandler where
  trigger : Option Trigger
  request : Option CancelTx
deriving DecidableEq, Repr

/-- The check `self.request.take().map_or(false, |req| !req.is_closed())`:
whether the
slot holds a sender that is still open. -/
def requestOpen : Option CancelTx → Bool
  | none => false
  | some req => !req.closed

/-- Rust `CompletionHandler::finish_debounce`: takes the stored trigger (the
source `expect`s it to be present; absence is modelled by `none`),
allocates a fresh open cancel sender into `request`, and dispatches
`request_completions` with the taken trigger (returned as the second
component). -/
def finish_debounce (s : CompletionHandler) : Option (CompletionHandler × Trigger) :=
  s.trigger.map fun trigger =>
    ({ trigger := none, request := some { closed := false } }, trigger)

/-- Rust `CompletionHandler::handle_event`. Returns the new state, the returned
deadline (as a duration from now, in ms), and the trigger dispatched to
`request_completions` when `finish_debounce` ran (ManualTrigger only). -/
def handle_event (cfg : Config) (s : CompletionHandler) (event : CompletionEvent) :
    CompletionHandler × Option Nat × Option Trigger :=
  match event with
  | .ManualTrigger cursor doc view =>
    -- immediately request completions and drop all auto completion requests,
    -- then stop debouncing immediately and request the completion
    let s1 : CompletionHandler :=
      { request := none, trigger := some { pos := cursor, view, doc, kind := .Manual } }
    match finish_debounce s1 with
    | some (s2, trigger) => (s2, none, some trigger)
    | none => (s1, none, none)
  | _ =>
    let s1 : CompletionHandler :=
      match event with
      | .AutoTrigger cursor doc view =>
        -- set the trigger iff the slot is empty or the stored (view, doc) differ
        if (s.trigger.map fun trigger => trigger.doc != doc || trigger.view != view).getD true
        then { s with trigger := some { pos := cursor, view, doc, kind := .Auto } }
        else s
      | .TriggerChar cursor doc view =>
        { request := none, trigger := some { pos := cursor, view, doc, kind := .TriggerChar } }
      | .Cancel => { trigger := none, request := none }
      | .DeleteText cursor =>
        -- if we deleted the original trigger, abort the completion
        if (s.trigger.map fun trigger => decide (cursor < trigger.pos)).getD false
        then { trigger := none, request := none }
        else s
      | .ManualTrigger _ _ _ => s  -- unreachable: handled by the first arm
    match s1.trigger with
    | none => (s1, none, none)
    | some trigger =>
      -- if the current request was closed forget about it,
      -- otherwise immediately restart the completion request
      let cancel := requestOpen s1.request
      let timeout := if trigger.kind = .Auto ∧ cancel = false
        then cfg.completionTimeout
        else 5
      ({ s1 with request := none }, some timeout, none)

/-- Events of the three trigger-carrying variants. -/
def is_trigger_event : CompletionEvent → Bool
  | .AutoTrigger _ _ _ => true
  | .TriggerChar _ _ _ => true
  | .ManualTrigger _ _ _ => true
  | _ => false

/-- Modelled from the spec: the buffer's word predicate (`char_is_word`
from `helix-core/src/chars.rs`, not among the given sources): a character
is a word character when it is alphanumeric or an underscore. The claims
below do not depend on which characters are word characters. -/
def char_is_word (c : Char) : Bool :=
  c.isAlphanum || c = '_'

/-- Rust `lsp::CompletionOptions`, restricted to the field this subsystem
reads. -/
structure CompletionOptions where
  triggerCharacters : Option (List Str)
deriving DecidableEq, Repr

/-- A language server handle offering the Completion feature: its stable
id and its advertised completion capabilities. -/
structure LanguageServer where
  id : LanguageServerId
  completionProvider : Option CompletionOptions
deriving DecidableEq, Repr

/-- Editor modes (`helix_view::document::Mode`). -/
inductive Mode where
  | Normal
  | Select
  | Insert
deriving DecidableEq, Repr

/-- The slice of editor state read by the classifier and the orchestrator:
the current view and document ids, the document text, the primary cursor
(`doc.selection(view.id).primary().cursor(text)`), and the document's
language servers advertising the Completion feature, in declaration
order (possibly with duplicate ids). -/
structure EditorState where
  mode : Mode
  view : ViewId
  doc : DocumentId
  text : Str
  cursor : Nat
  languageServers : List LanguageServer
deriving DecidableEq, Repr

/-- The trigger-character scan of `trigger_auto_completion`: does some
language server with the Completion feature declare a trigger string that
is a suffix of the text before the cursor? -/
def is_trigger_char_at (ed : EditorState) : Bool :=
  ed.languageServers.any fun ls =>
    match ls.completionProvider with
    | some { triggerCharacters := some triggers } =>
      triggers.any fun trigger => trigger.isSuffixOf (ed.text.take ed.cursor)
    | _ => false

/-- The auto-trigger scan of `trigger_auto_completion`: the (up to)
`completion_trigger_len` characters immediately preceding the cursor
(`doc.text().chars_at(cursor).reversed().take(len)`) are all word
characters. -/
def auto_trigger_word_cond (cfg : Config) (ed : EditorState) : Bool :=
  ((ed.text.take ed.cursor).reverse.take cfg.completionTriggerLen).all char_is_word

/-- Rust `trigger_auto_completion` from `handlers/completion.rs`. Sending on
the channel is modelled by returning the sent event (`none`: nothing
sent). -/
def trigger_auto_completion (cfg : Config) (ed : EditorState)
    (triggerCharOnly : Bool) : Option CompletionEvent :=
  if !cfg.autoCompletion then none
  else if is_trigger_char_at ed then
    some (.TriggerChar ed.cursor ed.doc ed.view)
  else if !triggerCharOnly && auto_trigger_word_cond cfg ed then
    some (.AutoTrigger ed.cursor ed.doc ed.view)
  else none

/-- An LSP completion item, restricted to the fields this subsystem
reads. -/
structure LspCompletionItem where
  label : Str
  sortText : Option Str
  filterText : Option Str
deriving DecidableEq, Repr

/-- Rust `CompletionItem` from `handlers/completion.rs`, with the fields set by
`CompletionResponse::into_items` (the struct's further
`incomplete_completion_list` flag is never assigned there and is omitted
from the model). -/
structure CompletionItem where
  item : LspCompletionItem
  provider : LanguageServerId
  resolved : Bool
  provider_priority : Int
deriving DecidableEq, Repr

/-- Rust `CompletionResponse` from `handlers/completion/request.rs`. -/
structure CompletionResponse where
  items : List LspCompletionItem
  incomplete : Bool
  provider : LanguageServerId
  priority : Int
deriving DecidableEq, Repr

/-- Rust `CompletionResponse::into_items`. -/
def CompletionResponse.into_items (self : CompletionResponse) : List CompletionItem :=
  self.items.map fun item =>
    { item := item, provider := self.provider, resolved := false,
      provider_priority := self.priority }

/-- The shared atomic version counter (`Arc<AtomicUsize>`): its identity
(the `Arc` pointer, modelled as a `Nat` id) and its current value. -/
structure VersionCounter where
  id : Nat
  value : Nat
deriving DecidableEq, Repr

/-- The UI's completion popup state, as far as this subsystem observes it:
the version counter, the displayed items, the incomplete-list map and the
data handed over at installation. -/
structure PopupState where
  version : VersionCounter
  items : List CompletionItem
  incompleteCompletionLists : List (LanguageServerId × Int)
  triggerPos : Nat
  savepoint : Nat
deriving DecidableEq, Repr

/-- Rust `lsp::CompletionTriggerKind` values used by this subsystem. -/
inductive LspTriggerKind where
  | Invoked
  | TriggerCharacter
  | TriggerForIncompleteCompletions
deriving DecidableEq, Repr

/-- Rust `lsp::CompletionContext`. -/
structure CompletionContext where
  triggerKind : LspTriggerKind
  triggerCharacter : Option Str
deriving DecidableEq, Repr

/-- One provider request issued by the fan-out of `request_completions`:
the provider id, the context built for it and the assigned priority. -/
structure IssuedRequest where
  provider : LanguageServerId
  context : CompletionContext
  priority : Int
deriving DecidableEq, Repr

/-- Wrap an integer into the i8 range [-128, 127] (two's complement). -/
def i8_wrap (n : Int) : Int := (n + 128) % 256 - 128

/-- The value `-(index as i8)` with Rust release-mode wrapping semantics: the index
cast to i8, then negated in i8 arithmetic. -/
def i8_neg (n : Nat) : Int := i8_wrap (-(i8_wrap n))

/-- The `seen_language_servers` dedup filter of `request_completions`
(`.filter(|ls| seen_language_servers.insert(ls.id()))`): keep the first
occurrence of each provider id, preserving order. `seen` is the set of
ids already seen. -/
def dedup_by_id : List LanguageServer → List LanguageServerId → List LanguageServer
  | [], _ => []
  | ls :: rest, seen =>
    if ls.id ∈ seen then dedup_by_id rest seen
    else ls :: dedup_by_id rest (ls.id :: seen)

/-- The `CompletionContext` the orchestrator builds for one provider:
`Invoked` for manual triggers; otherwise `TriggerCharacter` carrying the
first declared trigger string that is a suffix of the text before the
cursor, and `Invoked` when none matches. -/
def context_for (kind : TriggerKind) (ls : LanguageServer) (triggerText : Str) :
    CompletionContext :=
  if kind = .Manual then { triggerKind := .Invoked, triggerCharacter := none }
  else
    match (ls.completionProvider.bind fun provider => provider.triggerCharacters).bind
        (fun triggers => triggers.find? fun trigger => trigger.isSuffixOf triggerText) with
    | some c => { triggerKind := .TriggerCharacter, triggerCharacter := some c }
    | none => { triggerKind := .Invoked, triggerCharacter := none }

/-- The fan-out of `request_completions`: deduplicate the providers by id,
enumerate them, and issue one request per provider with
`priority = -(index as i8)`. -/
def fan_out (kind : TriggerKind) (triggerText : Str) (providers : List LanguageServer) :
    List IssuedRequest :=
  (dedup_by_id providers []).enum.map fun pr =>
    { provider := pr.2.id, context := context_for kind pr.2 triggerText,
      priority := i8_neg pr.1 }

/-- The synchronous editor-thread part of `request_completions`: the
pre-flight guard, the trigger normalisation and the fan-out. `none`
models the silent abort (nothing issued, no editor or UI state touched);
`some` carries the normalised trigger (recorded on the popup) and the
issued provider requests. `popup` is the `EditorView`'s current
completion popup. -/
def request_completions (trigger : Trigger) (ed : EditorState)
    (popup : Option PopupState) : Option (Trigger × List IssuedRequest) :=
  if popup.isSome = true ∨ ed.mode ≠ Mode.Insert then none
  else if trigger.view ≠ ed.view ∨ trigger.doc ≠ ed.doc ∨ ed.cursor < trigger.pos then none
  else
    let trigger2 : Trigger := { trigger with pos := ed.cursor }
    some (trigger2, fan_out trigger2.kind (ed.text.take ed.cursor) ed.languageServers)

/-- Rust `lsp::CompletionResponse` as deserialised from a provider's JSON
reply: an array of items, a list `{is_incomplete, items}`, or null
(`None` after the `Option` deserialisation). -/
inductive LspReply where
  | array (items : List LspCompletionItem)
  | list (isIncomplete : Bool) (items : List LspCompletionItem)
  | null
deriving DecidableEq, Repr

/-- A provider's reply as seen by the merge pipeline: either the RPC or
the deserialisation errored, or a deserialised `LspReply`. -/
inductive ProviderReply where
  | err
  | ok (reply : LspReply)
deriving DecidableEq, Repr

/-- The `(items, incomplete)` pair extracted from a deserialised reply in
`request_completions_from_language_server`. -/
def interp_reply : LspReply → List LspCompletionItem × Bool
  | .array items => (items, false)
  | .list isIncomplete items => (items, isIncomplete)
  | .null => ([], false)

/-- Code-point-wise string comparison (Rust `str::cmp`). -/
def str_le : Str → Str → Bool
  | [], _ => true
  | _ :: _, [] => false
  | a :: as, b :: bs => if a = b then str_le as bs else decide (a < b)

/-- The key `item.sort_text.as_deref().unwrap_or(&item.label)`. -/
def sort_key (item : LspCompletionItem) : Str :=
  item.sortText.getD item.label

/-- The sort `items.sort_by(...)` on `(sort_text ?? label)` ascending; Rust
`sort_by` is stable, as is `List.mergeSort`. -/
def sort_items (items : List LspCompletionItem) : List LspCompletionItem :=
  items.mergeSort fun item1 item2 => str_le (sort_key item1) (sort_key item2)

/-- The async tail of `request_completions_from_language_server`: turn
the provider's raw reply into a `CompletionResponse` with sorted items,
or an error when the RPC or the deserialisation errored. -/
def parse_provider_reply (provider : LanguageServerId) (priority : Int) :
    ProviderReply → Except Unit CompletionResponse
  | .err => .error ()
  | .ok reply =>
    .ok { items := sort_items (interp_reply reply).1,
          incomplete := (interp_reply reply).2,
          provider := provider, priority := priority }

/-- The `futures.filter_map` stage of `request_completions`: drop errored
responses (after logging) and responses whose item list is empty and
which are not marked incomplete. -/
def merge_filter : Except Unit CompletionResponse → Option CompletionResponse
  | .error () => none
  | .ok response =>
    if response.items.isEmpty && !response.incomplete then none
    else some response

/-- One provider reply pushed through both stages of the merge pipeline
of `request_completions`: `none` means dropped, `some` survives into the
popup. -/
def completion_pipeline (provider : LanguageServerId) (priority : Int)
    (reply : ProviderReply) : Option CompletionResponse :=
  merge_filter (parse_provider_reply provider priority reply)

/-- Modelled from the spec: `Completion::replace_provider_completions`
(UI layer, not among the given sources) replaces the given provider's
slice of the popup's items with the newly arrived response's items. The
theorems about the replace-on-arrival guard do not depend on what this
does, only on whether it runs. -/
def replace_provider_completions (popup : PopupState)
    (response : CompletionResponse) : PopupState :=
  { popup with items :=
      popup.items.filter (fun item => item.provider ≠ response.provider) ++
        response.into_items }

/-- The closure `replace_completions` dispatches onto the editor thread
for one late response: fetch the live popup (`none` when it is gone),
verify pointer-identity of the popup's counter against the captured one
(`Arc::ptr_eq`, modelled by the counter ids) and that the captured
counter's current value still equals the captured initial value; only on
success replace that provider's items. `captured.value` is the captured
counter object's value at dispatch time; when the identity check passes
it IS the live popup counter's value, the two being one object. -/
def replace_dispatch (captured : VersionCounter) (initialVersion : Nat)
    (response : CompletionResponse) (popup : Option PopupState) : Option PopupState :=
  match popup with
  | none => none
  | some completion =>
    if ¬(completion.version.id = captured.id) ∨ captured.value ≠ initialVersion
    then some completion
    else some (replace_provider_completions completion response)

/-- The loop of `replace_completions` over the response stream, at a fixed
world: before each response the captured counter's value is compared
against the initial value; on mismatch the loop breaks and the rest of
the stream is dropped, otherwise the dispatched closure runs. -/
def replace_completions (captured : VersionCounter) (initialVersion : Nat) :
    List CompletionResponse → Option PopupState → Option PopupState
  | [], popup => popup
  | response :: rest, popup =>
    if captured.value ≠ initialVersion then popup
    else replace_completions captured initialVersion rest
      (replace_dispatch captured initialVersion response popup)

/-- The compositor state this subsystem touches: the `EditorView`'s
completion popup and whether a signature-help popup is present. -/
structure UIState where
  completion : Option PopupState
  signatureHelp : Bool
deriving DecidableEq, Repr

/-- Rust `show_completion` from `handlers/completion.rs`. The editor is only
read (mode and current view/doc ids, taken from `ed`); `set_completion`
(UI layer, not among the given sources) is modelled from the spec: it
installs a popup holding the handed-over items, incomplete-lists map,
trigger position and savepoint, with a freshly allocated version counter
initialised to 0 (its fresh `Arc` identity is the `freshVersionId`
parameter); `areasIntersect` abstracts the popup-rectangle geometry of
the signature-help removal. -/
def show_completion (ed : EditorState) (ui : UIState) (items : List CompletionItem)
    (incompleteCompletionLists : List (LanguageServerId × Int)) (trigger : Trigger)
    (savepoint : Nat) (freshVersionId : Nat) (areasIntersect : Bool) : UIState :=
  -- check if the completion request is stale: the user could switch
  -- document/view or leave insert mode while completions are computed
  if ed.mode ≠ Mode.Insert ∨ ed.view ≠ trigger.view ∨ ed.doc ≠ trigger.doc then ui
  else if ui.completion.isSome then ui
  else
    let popup : PopupState :=
      { version := { id := freshVersionId, value := 0 },
        items := items,
        incompleteCompletionLists := incompleteCompletionLists,
        triggerPos := trigger.pos,
        savepoint := savepoint }
    let ui2 : UIState := { ui with completion := some popup }
    -- delete the signature help popup if the two popups intersect
    if ui2.signatureHelp && areasIntersect then { ui2 with signatureHelp := false }
    else ui2

/-! Concrete inputs used by the witnesses. -/

/-- Concrete configuration used in the claim C2 counterexample and witness. -/
def cfgA : Config :=
  { autoCompletion := true, completionTimeout := 250, completionTriggerLen := 2 }

/-- A debouncer state with an in-flight (open) request and no stored trigger. -/
def stateOpenReq : CompletionHandler :=
  { trigger := none, request := some { closed := false } }

/-- Concrete configuration for the claim C3 witness. -/
def cfgB : Config :=
  { autoCompletion := true, completionTimeout := 250, completionTriggerLen := 2 }

/-- Concrete configuration for the claim C8 witness. -/
def cfgC : Config :=
  { autoCompletion := true, completionTimeout := 250, completionTriggerLen := 2 }

/-- Configuration for the classifier witnesses: trigger length 2. -/
def cfgD : Config :=
  { autoCompletion := true, completionTimeout := 250, completionTriggerLen := 2 }

/-- A provider declaring the trigger string "oo". -/
def lsOO : LanguageServer :=
  { id := 0, completionProvider := some { triggerCharacters := some [['o', 'o']] } }

/-- Snapshot with text "foo" and cursor 3: the trigger string "oo" is a
suffix of the text before the cursor AND the 2 preceding characters are
word characters, so both classifier conditions hold. -/
def edBoth : EditorState :=
  { mode := .Insert, view := 0, doc := 0, text := ['f', 'o', 'o'], cursor := 3,
    languageServers := [lsOO] }

/-- Snapshot at the very start of a buffer of non-word characters: zero
characters precede cursor 0, so the word-character scan is vacuous. -/
def edStart : EditorState :=
  { mode := .Insert, view := 1, doc := 1, text := ['.', ','], cursor := 0,
    languageServers := [] }

/-- Trigger used by the claim C4 witness (observed at position 2). -/
def trigC4 : Trigger := { pos := 2, view := 0, doc := 0, kind := .Auto }

/-- A snapshot on which every pre-flight check passes (cursor 3 ≥ 2). -/
def edGood : EditorState :=
  { mode := .Insert, view := 0, doc := 0, text := ['a', 'b', 'c'], cursor := 3,
    languageServers := [] }

/-- A snapshot failing the pre-flight mode check (Normal mode). -/
def edBad : EditorState :=
  { mode := .Normal, view := 0, doc := 0, text := ['a', 'b', 'c'], cursor := 3,
    languageServers := [] }

/-- Providers for the claim C6 witness: two sharing id 1, one with id 2. -/
def lsP1 : LanguageServer := { id := 1, completionProvider := none }

/-- Second provider with the duplicate id 1. -/
def lsP1b : LanguageServer := { id := 1, completionProvider := none }

/-- Provider with id 2. -/
def lsP2 : LanguageServer := { id := 2, completionProvider := none }

/-- An item used by the claim C7 witness. -/
def itemX : LspCompletionItem :=
  { label := ['x'], sortText := none, filterText := none }

/-- A response used by the claim C1 witness. -/
def respLate : CompletionResponse :=
  { items := [{ label := ['x'], sortText := none, filterText := none }],
    incomplete := false, provider := 0, priority := 0 }

/-- A popup whose counter (id 3, value 7) no longer matches the initial
value 0 captured by a replace-on-arrival task. -/
def popupStale : PopupState :=
  { version := { id := 3, value := 7 }, items := [],
    incompleteCompletionLists := [], triggerPos := 0, savepoint := 0 }

/-- Trigger for the claim C10 witness. -/
def trigC10 : Trigger := { pos := 1, view := 2, doc := 3, kind := .Auto }

/-- Snapshot matching `trigC10` in Insert mode. -/
def edC10 : EditorState :=
  { mode := .Insert, view := 2, doc := 3, text := [], cursor := 1,
    languageServers := [] }

/-- The same snapshot in Normal mode (guard must fail). -/
def edC10n : EditorState :=
  { mode := .Normal, view := 2, doc := 3, text := [], cursor := 1,
    languageServers := [] }

/-- A compositor with no completion popup and no signature help. -/
def uiEmpty : UIState := { completion := none, signatureHelp := false }

/-! Theorems. -/

/-- C2 (counterexample): handling an `AutoTrigger` event does NOT leave the
`request` slot unchanged: with an open in-flight cancel sender stored, the
deadline computation takes and drops it, leaving the slot empty. -/
theorem autotrigger_request_not_unchanged :
    (handle_event cfgA stateOpenReq (.AutoTrigger 0 0 0)).1.request ≠
      stateOpenReq.request := by
  decide

/-- C2 (amended): for every `AutoTrigger` event, `handle_event` sets the
`trigger` slot iff it was empty or the stored trigger's (view, doc) differ
from the event's; and because a trigger is always stored afterwards, the
deadline computation takes the `request` slot, so the cancel-sender of any
in-flight request is removed (dropped), leaving `request` empty. No
orchestrator dispatch happens. -/
theorem autotrigger_frame (cfg : Config) (s : CompletionHandler)
    (cursor : Nat) (doc : DocumentId) (view : ViewId) :
    ((s.trigger = none ∨ ∃ t, s.trigger = some t ∧ (t.doc ≠ doc ∨ t.view ≠ view)) →
      (handle_event cfg s (.AutoTrigger cursor doc view)).1.trigger =
        some { pos := cursor, view := view, doc := doc, kind := .Auto }) ∧
    ((∃ t, s.trigger = some t ∧ t.doc = doc ∧ t.view = view) →
      (handle_event cfg s (.AutoTrigger cursor doc view)).1.trigger = s.trigger) ∧
    (handle_event cfg s (.AutoTrigger cursor doc view)).1.request = none ∧
    (handle_event cfg s (.AutoTrigger cursor doc view)).2.2 = none := by
  cases hs : s.trigger with
  | none =>
    refine ⟨fun _ => by simp [handle_event, hs], fun h => ?_,
      by simp [handle_event, hs], by simp [handle_event, hs]⟩
    rcases h with ⟨t, ht, _⟩
    cases ht
  | some t =>
    by_cases hvd : t.doc = doc ∧ t.view = view
    · have hcond : (t.doc != doc || t.view != view) = false := by simp [hvd.1, hvd.2]
      refine ⟨fun h => ?_, fun _ => by simp [handle_event, hs, hcond],
        by simp [handle_event, hs, hcond], by simp [handle_event, hs, hcond]⟩
      rcases h with h | ⟨t', ht', h⟩
      · cases h
      · injection ht' with ht'; subst ht'
        rcases h with h | h
        · exact absurd hvd.1 h
        · exact absurd hvd.2 h
    · have hcond : (t.doc != doc || t.view != view) = true := by
        rcases not_and_or.mp hvd with h | h <;> simp [h]
      refine ⟨fun _ => by simp [handle_event, hs, hcond], fun h => ?_,
        by simp [handle_event, hs, hcond], by simp [handle_event, hs, hcond]⟩
      rcases h with ⟨t', ht', h1, h2⟩
      injection ht' with ht'; subst ht'
      exact absurd ⟨h1, h2⟩ hvd

/-- C2 (witness for the amended theorem): at a concrete state with an open
in-flight request and an empty trigger slot, an `AutoTrigger` stores the
new trigger and empties the `request` slot. -/
theorem autotrigger_frame_witness :
    (handle_event cfgA stateOpenReq (.AutoTrigger 4 7 9)).1.trigger =
      some { pos := 4, view := 9, doc := 7, kind := .Auto } ∧
    (handle_event cfgA stateOpenReq (.AutoTrigger 4 7 9)).1.request = none :=
  ⟨(autotrigger_frame cfgA stateOpenReq 4 7 9).1 (Or.inl rfl),
   (autotrigger_frame cfgA stateOpenReq 4 7 9).2.2.1⟩

/-- C3: for every trigger event (`AutoTrigger`, `TriggerChar` or
`ManualTrigger`) after which a deadline is returned, the stored trigger
exists and the returned duration is the configured `completion_timeout`
when the stored trigger's kind is `Auto` and no prior request's
cancel-sender is still open, and 5 ms in every other case (so when
`completion_timeout` is not itself 5 ms, the deadline equals
`now + completion_timeout` exactly when that condition holds). -/
theorem deadline_formula (cfg : Config) (s : CompletionHandler) (e : CompletionEvent)
    (d : Nat) (he : is_trigger_event e = true)
    (hd : (handle_event cfg s e).2.1 = some d) :
    ∃ t, (handle_event cfg s e).1.trigger = some t ∧
      d = (if t.kind = .Auto ∧ requestOpen s.request = false
        then cfg.completionTimeout else 5) ∧
      (cfg.completionTimeout ≠ 5 →
        (d = cfg.completionTimeout ↔ t.kind = .Auto ∧ requestOpen s.request = false)) := by
  have hiff : ∀ t : TriggerKind, ∀ b : Bool, cfg.completionTimeout ≠ 5 →
      (((if t = .Auto ∧ b = false then cfg.completionTimeout else 5) = cfg.completionTimeout) ↔
        (t = .Auto ∧ b = false)) := by
    intro t b h5
    by_cases hc : t = .Auto ∧ b = false
    · simp [hc]
    · simp [hc]
      exact fun h => absurd h.symm h5
  cases e with
  | AutoTrigger cursor doc view =>
    cases hs : s.trigger with
    | none =>
      refine ⟨{ pos := cursor, view := view, doc := doc, kind := .Auto }, ?_, ?_, ?_⟩ <;>
        simp [handle_event, hs] at hd ⊢
      · omega
      · intro h5
        rw [← hd]
        simpa using hiff .Auto (requestOpen s.request) h5
    | some t =>
      by_cases hcond : (t.doc != doc || t.view != view) = true
      · refine ⟨{ pos := cursor, view := view, doc := doc, kind := .Auto }, ?_, ?_, ?_⟩ <;>
          simp [handle_event, hs, hcond] at hd ⊢
        · omega
        · intro h5
          rw [← hd]
          simpa using hiff .Auto (requestOpen s.request) h5
      · refine ⟨t, ?_, ?_, ?_⟩ <;>
          simp [handle_event, hs, hcond] at hd ⊢
        · omega
        · intro h5
          rw [← hd]
          exact hiff t.kind (requestOpen s.request) h5
  | TriggerChar cursor doc view =>
    have hval : (handle_event cfg s (.TriggerChar cursor doc view)).2.1 = some 5 := rfl
    rw [hval] at hd
    have hd5 : d = 5 := by injection hd with h; exact h.symm
    have hnot : ¬(TriggerKind.TriggerChar = TriggerKind.Auto ∧ requestOpen s.request = false) :=
      fun h => TriggerKind.noConfusion h.1
    refine ⟨{ pos := cursor, view := view, doc := doc, kind := .TriggerChar }, rfl, ?_, ?_⟩
    · rw [hd5, if_neg hnot]
    · intro h5
      constructor
      · intro h
        exact absurd (by rw [← h]; exact hd5) h5
      · intro h
        exact absurd h hnot
  | ManualTrigger cursor doc view =>
    have hnone : (handle_event cfg s (.ManualTrigger cursor doc view)).2.1 = none := rfl
    rw [hnone] at hd
    cases hd
  | DeleteText cursor => simp [is_trigger_event] at he
  | Cancel => simp [is_trigger_event] at he

/-- C3 (witness): from an idle state, an `AutoTrigger` returns the full
`completion_timeout` (250 ms here) as the deadline duration. -/
theorem deadline_formula_witness :
    ∃ t, (handle_event cfgB { trigger := none, request := none }
        (.AutoTrigger 1 2 3)).1.trigger = some t ∧
      (250 : Nat) = (if t.kind = .Auto ∧ requestOpen (none : Option CancelTx) = false
        then cfgB.completionTimeout else 5) ∧
      (cfgB.completionTimeout ≠ 5 →
        ((250 : Nat) = cfgB.completionTimeout ↔
          t.kind = .Auto ∧ requestOpen (none : Option CancelTx) = false)) :=
  deadline_formula cfgB { trigger := none, request := none }
    (.AutoTrigger 1 2 3) 250 (by decide) (by decide)

/-- C8: handling `DeleteText{c}` with `c` strictly below the stored
trigger's position clears the trigger, drops the request cancel-sender
and returns deadline `None`. -/
theorem delete_text_aborts (cfg : Config) (s : CompletionHandler) (c : Nat) (t : Trigger)
    (ht : s.trigger = some t) (hc : c < t.pos) :
    handle_event cfg s (.DeleteText c) =
      ({ trigger := none, request := none }, none, none) := by
  simp [handle_event, ht, hc]

/-- C8 (witness): deleting at cursor 3 with a trigger stored at position 5
clears both slots and returns no deadline. -/
theorem delete_text_aborts_witness :
    handle_event cfgC
        { trigger := some { pos := 5, view := 1, doc := 2, kind := .Auto },
          request := some { closed := false } }
        (.DeleteText 3) =
      ({ trigger := none, request := none }, none, none) :=
  delete_text_aborts cfgC
    { trigger := some { pos := 5, view := 1, doc := 2, kind := .Auto },
      request := some { closed := false } }
    3 { pos := 5, view := 1, doc := 2, kind := .Auto } rfl (by decide)

/-- C5: when `auto_completion` is off the classifier emits nothing at
all; and whenever both the trigger-character condition and the
auto-trigger condition hold, it emits exactly one event and it is
`TriggerChar`, never `AutoTrigger`. -/
theorem trigger_char_dominates (cfg : Config) (ed : EditorState) (triggerCharOnly : Bool) :
    (cfg.autoCompletion = false → trigger_auto_completion cfg ed triggerCharOnly = none) ∧
    (cfg.autoCompletion = true → is_trigger_char_at ed = true →
      auto_trigger_word_cond cfg ed = true →
      trigger_auto_completion cfg ed triggerCharOnly =
        some (.TriggerChar ed.cursor ed.doc ed.view)) := by
  constructor
  · intro h
    simp [trigger_auto_completion, h]
  · intro h ht _
    simp [trigger_auto_completion, h, ht]

/-- C5 (witness): on `edBoth` both conditions hold and the emitted event
is `TriggerChar`. -/
theorem trigger_char_dominates_witness :
    trigger_auto_completion cfgD edBoth false = some (.TriggerChar 3 0 0) :=
  (trigger_char_dominates cfgD edBoth false).2 rfl (by decide) (by decide)

/-- C9: with `auto_completion` on, `trigger_char_only` off and no declared
trigger string matching, the classifier emits `AutoTrigger` whenever the
characters actually preceding the cursor — up to `completion_trigger_len`
of them, possibly fewer near the buffer start and zero at position 0 —
are all word characters. -/
theorem auto_trigger_fallback (cfg : Config) (ed : EditorState)
    (h1 : cfg.autoCompletion = true)
    (h2 : is_trigger_char_at ed = false)
    (h3 : auto_trigger_word_cond cfg ed = true) :
    trigger_auto_completion cfg ed false =
      some (.AutoTrigger ed.cursor ed.doc ed.view) := by
  simp [trigger_auto_completion, h1, h2, h3]

/-- C9 (witness): at cursor position 0 an `AutoTrigger` is emitted. -/
theorem auto_trigger_fallback_witness :
    trigger_auto_completion cfgD edStart false = some (.AutoTrigger 0 1 1) :=
  auto_trigger_fallback cfgD edStart rfl (by decide) (by decide)

/-- C4: the pre-flight guard of `request_completions`: with a popup
already open, or outside Insert mode, or a (view, doc) mismatch, or the
cursor strictly before the trigger position, nothing is issued and no
state is touched; otherwise `trigger.pos` is replaced by the current
cursor before the fan-out is issued. -/
theorem preflight_guard (trigger : Trigger) (ed : EditorState) (popup : Option PopupState) :
    ((popup.isSome = true ∨ ed.mode ≠ Mode.Insert ∨ trigger.view ≠ ed.view ∨
        trigger.doc ≠ ed.doc ∨ ed.cursor < trigger.pos) →
      request_completions trigger ed popup = none) ∧
    (popup = none → ed.mode = Mode.Insert → trigger.view = ed.view →
      trigger.doc = ed.doc → trigger.pos ≤ ed.cursor →
      request_completions trigger ed popup =
        some ({ trigger with pos := ed.cursor },
          fan_out trigger.kind (ed.text.take ed.cursor) ed.languageServers)) := by
  constructor
  · intro h
    simp only [request_completions]
    split
    · rfl
    · split
      · rfl
      · rename_i h1 h2
        push_neg at h1 h2
        rcases h with h | h | h | h | h
        · exact absurd h h1.1
        · exact absurd h1.2 h
        · exact absurd h2.1 h
        · exact absurd h2.2.1 h
        · omega
  · intro hp hm hv hd hc
    have h1 : ¬(popup.isSome = true ∨ ed.mode ≠ Mode.Insert) := by
      subst hp
      simp [hm]
    have h2 : ¬(trigger.view ≠ ed.view ∨ trigger.doc ≠ ed.doc ∨ ed.cursor < trigger.pos) := by
      push_neg
      exact ⟨hv, hd, hc⟩
    simp only [request_completions]
    rw [if_neg h1, if_neg h2]

/-- C4 (witness): in Normal mode the orchestrator aborts silently; with
every check passing it issues the fan-out with `pos` normalised to the
cursor (3). -/
theorem preflight_guard_witness :
    request_completions trigC4 edBad none = none ∧
    request_completions trigC4 edGood none =
      some ({ trigC4 with pos := 3 },
        fan_out trigC4.kind (edGood.text.take edGood.cursor) edGood.languageServers) :=
  ⟨(preflight_guard trigC4 edBad none).1 (Or.inr (Or.inl (by decide))),
   (preflight_guard trigC4 edGood none).2 rfl rfl rfl rfl (by decide)⟩

/-- The dedup filter yields a sublist of its input (declaration order is
preserved). -/
theorem dedup_by_id_sublist (l : List LanguageServer) (seen : List LanguageServerId) :
    (dedup_by_id l seen).Sublist l := by
  induction l generalizing seen with
  | nil => simp [dedup_by_id]
  | cons ls rest ih =>
    simp only [dedup_by_id]
    split
    · exact (ih seen).cons ls
    · exact (ih (ls.id :: seen)).cons₂ ls

/-- No element surviving the dedup filter has an id in the seen set. -/
theorem dedup_by_id_not_seen (l : List LanguageServer) (seen : List LanguageServerId)
    (ls : LanguageServer) (h : ls ∈ dedup_by_id l seen) : ls.id ∉ seen := by
  induction l generalizing seen with
  | nil => simp [dedup_by_id] at h
  | cons a rest ih =>
    simp only [dedup_by_id] at h
    split at h
    · exact ih seen h
    · rcases List.mem_cons.mp h with rfl | h2
      · rename_i hnin
        exact hnin
      · intro hmem
        exact ih (a.id :: seen) h2 (List.mem_cons_of_mem _ hmem)

/-- The ids surviving the dedup filter are pairwise distinct. -/
theorem dedup_by_id_nodup (l : List LanguageServer) (seen : List LanguageServerId) :
    ((dedup_by_id l seen).map LanguageServer.id).Nodup := by
  induction l generalizing seen with
  | nil => simp [dedup_by_id]
  | cons a rest ih =>
    simp only [dedup_by_id]
    split
    · exact ih seen
    · simp only [List.map_cons, List.nodup_cons]
      refine ⟨?_, ih (a.id :: seen)⟩
      intro hmem
      rcases List.mem_map.mp hmem with ⟨ls, hls, hid⟩
      exact dedup_by_id_not_seen _ _ _ hls (by rw [hid]; exact List.mem_cons_self _ _)

/-- Every input provider whose id is not already seen has its id
represented in the dedup output. -/
theorem dedup_by_id_covers (l : List LanguageServer) (seen : List LanguageServerId)
    (ls : LanguageServer) (hmem : ls ∈ l) (hs : ls.id ∉ seen) :
    ls.id ∈ (dedup_by_id l seen).map LanguageServer.id := by
  induction l generalizing seen with
  | nil => cases hmem
  | cons a rest ih =>
    simp only [dedup_by_id]
    rcases List.mem_cons.mp hmem with rfl | hmem2
    · split
      · rename_i hin
        exact absurd hin hs
      · simp
    · split
      · exact ih seen hmem2 hs
      · by_cases heq : ls.id = a.id
        · simp [heq]
        · have hs2 : ls.id ∉ a.id :: seen := by
            intro h
            rcases List.mem_cons.mp h with h | h
            · exact heq h
            · exact hs h
          have := ih (a.id :: seen) hmem2 hs2
          simp only [List.map_cons, List.mem_cons]
          exact Or.inr this

/-- C6: the fan-out enumerates the providers in declaration order with
duplicate ids removed (a sublist of the input whose ids are distinct and
cover every input id), the request at index `i` carries priority
`-(i as i8)`, and every response surviving the merge pipeline carries
exactly the provider id and priority it was issued with. -/
theorem fan_out_spec (kind : TriggerKind) (text : Str) (providers : List LanguageServer) :
    ((fan_out kind text providers).map IssuedRequest.provider =
      (dedup_by_id providers []).map LanguageServer.id) ∧
    (dedup_by_id providers []).Sublist providers ∧
    ((dedup_by_id providers []).map LanguageServer.id).Nodup ∧
    (∀ ls ∈ providers, ls.id ∈ (dedup_by_id providers []).map LanguageServer.id) ∧
    (∀ i, ∀ h : i < (fan_out kind text providers).length,
      ((fan_out kind text providers).get ⟨i, h⟩).priority = i8_neg i) ∧
    (∀ (p : LanguageServerId) (pr : Int) (reply : ProviderReply)
        (resp : CompletionResponse),
      completion_pipeline p pr reply = some resp →
        resp.priority = pr ∧ resp.provider = p) := by
  refine ⟨?_, dedup_by_id_sublist providers [], dedup_by_id_nodup providers [],
    fun ls hls => dedup_by_id_covers providers [] ls hls (by simp), ?_, ?_⟩
  · rw [fan_out, List.map_map]
    have : (IssuedRequest.provider ∘ fun pr : Nat × LanguageServer =>
        ({ provider := pr.2.id, context := context_for kind pr.2 text,
           priority := i8_neg pr.1 } : IssuedRequest)) =
        LanguageServer.id ∘ Prod.snd := rfl
    rw [this, ← List.map_map, List.enum_map_snd]
  · intro i h
    have hlen : i < (dedup_by_id providers []).enum.length := by
      simpa [fan_out] using h
    simp [fan_out, List.get_eq_getElem, List.getElem_map, List.getElem_enum]
  · intro p pr reply resp hres
    cases reply with
    | err => cases hres
    | ok r =>
      simp only [completion_pipeline, parse_provider_reply, merge_filter] at hres
      split at hres
      · cases hres
      · cases hres
        exact ⟨rfl, rfl⟩

/-- C6 (witness): with providers with ids 1, 1, 2 the fan-out keeps ids
[1, 2] and the request at index 1 has priority `-(1 as i8) = -1`. -/
theorem fan_out_spec_witness :
    (fan_out .Manual [] [lsP1, lsP1b, lsP2]).map IssuedRequest.provider =
      (dedup_by_id [lsP1, lsP1b, lsP2] []).map LanguageServer.id ∧
    ((fan_out .Manual [] [lsP1, lsP1b, lsP2]).get ⟨1, by decide⟩).priority = i8_neg 1 :=
  ⟨(fan_out_spec .Manual [] [lsP1, lsP1b, lsP2]).1,
   (fan_out_spec .Manual [] [lsP1, lsP1b, lsP2]).2.2.2.2.1 1 (by decide)⟩

/-- The stable sort of the merge pipeline returns an empty list exactly
on empty input. -/
theorem sort_items_eq_nil_iff (items : List LspCompletionItem) :
    sort_items items = [] ↔ items = [] := by
  constructor
  · intro h
    have hperm := List.mergeSort_perm items
      (fun item1 item2 => str_le (sort_key item1) (sort_key item2))
    rw [sort_items] at h
    rw [h] at hperm
    exact hperm.symm.eq_nil
  · intro h
    rw [h, sort_items, List.mergeSort_nil]

/-- C7: the merge pipeline drops errored replies, drops exactly the
replies whose item list is empty and whose incomplete flag is false, and
treats a null JSON reply identically to an empty non-incomplete list;
every other reply survives. -/
theorem merge_filter_drops (provider : LanguageServerId) (priority : Int) :
    completion_pipeline provider priority .err = none ∧
    (∀ reply : LspReply, completion_pipeline provider priority (.ok reply) = none ↔
      ((interp_reply reply).1 = [] ∧ (interp_reply reply).2 = false)) ∧
    completion_pipeline provider priority (.ok .null) =
      completion_pipeline provider priority (.ok (.list false [])) := by
  refine ⟨rfl, ?_, rfl⟩
  intro reply
  simp only [completion_pipeline, parse_provider_reply, merge_filter]
  by_cases hc : ((sort_items (interp_reply reply).1).isEmpty &&
      !(interp_reply reply).2) = true
  · rw [if_pos hc]
    simp only [Bool.and_eq_true, Bool.not_eq_true', List.isEmpty_iff] at hc
    constructor
    · intro _
      exact ⟨(sort_items_eq_nil_iff _).mp hc.1, hc.2⟩
    · intro _
      rfl
  · rw [if_neg hc]
    simp only [Bool.and_eq_true, Bool.not_eq_true', List.isEmpty_iff] at hc
    constructor
    · intro h
      cases h
    · intro h
      exact absurd ⟨(sort_items_eq_nil_iff _).mpr h.1, h.2⟩ hc

/-- C7 (witness): a null reply is dropped while a one-item array reply
survives the pipeline. -/
theorem merge_filter_drops_witness :
    completion_pipeline 1 0 (.ok .null) = none ∧
    completion_pipeline 1 0 (.ok (.array [itemX])) ≠ none :=
  ⟨((merge_filter_drops 1 0).2.1 .null).mpr ⟨rfl, rfl⟩,
   fun h => List.noConfusion (((merge_filter_drops 1 0).2.1 (.array [itemX])).mp h).1⟩

/-- C1: a replace-on-arrival task that captured the counter `captured`
with initial value `initialVersion` never mutates a popup whose counter
value differs from the initial value or whose counter object is not the
captured one: the whole remaining response stream leaves the popup
unchanged (each dispatch returns without effect; on an outer value
mismatch the stream is dropped at once). The hypothesis `hshared` records
that when the popup's counter IS the captured object (same identity), the
two read the same value. -/
theorem version_monotonicity (captured : VersionCounter) (initialVersion : Nat)
    (responses : List CompletionResponse) (completion : PopupState)
    (hshared : captured.id = completion.version.id →
      captured.value = completion.version.value)
    (hstale : completion.version.value ≠ initialVersion ∨
      completion.version.id ≠ captured.id) :
    replace_completions captured initialVersion responses (some completion) =
      some completion := by
  induction responses with
  | nil => rfl
  | cons response rest ih =>
    simp only [replace_completions]
    by_cases hv : captured.value ≠ initialVersion
    · rw [if_pos hv]
    · rw [if_neg hv]
      have hv2 : captured.value = initialVersion := of_not_not hv
      have hid : ¬(completion.version.id = captured.id) := by
        intro hid
        have hval := hshared hid.symm
        rcases hstale with h | h
        · exact h (hval ▸ hv2)
        · exact h hid
      have hdisp : replace_dispatch captured initialVersion response (some completion) =
          some completion := by
        simp only [replace_dispatch]
        rw [if_pos (Or.inl hid)]
      rw [hdisp]
      exact ih

/-- C1 (witness): a task that captured initial value 0 of the counter
(id 3, now at value 7) leaves the stale popup untouched for the whole
stream. -/
theorem version_monotonicity_witness :
    replace_completions { id := 3, value := 7 } 0 [respLate] (some popupStale) =
      some popupStale :=
  version_monotonicity { id := 3, value := 7 } 0 [respLate] popupStale
    (fun _ => rfl) (Or.inl (by decide))

/-- C10: `show_completion` installs a popup only when, at install time,
the editor is in Insert mode, the current view and document ids equal the
trigger's, and no completion popup exists; under any other condition the
compositor state is returned unchanged (and the editor is never written),
so an installation never overwrites an existing popup and never happens
outside Insert mode. -/
theorem show_completion_guards (ed : EditorState) (ui : UIState)
    (items : List CompletionItem) (incs : List (LanguageServerId × Int))
    (trigger : Trigger) (savepoint freshVersionId : Nat) (areasIntersect : Bool) :
    (¬(ed.mode = Mode.Insert ∧ ed.view = trigger.view ∧ ed.doc = trigger.doc ∧
        ui.completion = none) →
      show_completion ed ui items incs trigger savepoint freshVersionId areasIntersect = ui) ∧
    ((ed.mode = Mode.Insert ∧ ed.view = trigger.view ∧ ed.doc = trigger.doc ∧
        ui.completion = none) →
      (show_completion ed ui items incs trigger savepoint freshVersionId
        areasIntersect).completion.isSome = true) := by
  constructor
  · intro h
    simp only [show_completion]
    split
    · rfl
    · rename_i hg
      push_neg at hg
      obtain ⟨hm, hv, hd⟩ := hg
      split
      · rfl
      · rename_i hc
        exfalso
        apply h
        refine ⟨hm, hv, hd, ?_⟩
        cases hcc : ui.completion with
        | none => rfl
        | some p =>
          rw [hcc] at hc
          simp at hc
  · intro h
    obtain ⟨hm, hv, hd, hc⟩ := h
    simp only [show_completion]
    rw [if_neg (by push_neg; exact ⟨hm, hv, hd⟩), if_neg (by rw [hc]; simp)]
    split <;> simp

/-- C10 (witness): in Normal mode nothing is installed; with all checks
passing on an empty compositor a popup appears. -/
theorem show_completion_guards_witness :
    show_completion edC10n uiEmpty [] [] trigC10 0 5 false = uiEmpty ∧
    (show_completion edC10 uiEmpty [] [] trigC10 0 5 false).completion.isSome = true :=
  ⟨(show_completion_guards edC10n uiEmpty [] [] trigC10 0 5 false).1 (by decide),
   (show_completion_guards edC10 uiEmpty [] [] trigC10 0 5 false).2
     ⟨rfl, rfl, rfl, rfl⟩⟩

end HelixCompletion
